import Mathlib

/-!
Verification of the tolerant CSV parsing core of the reagan-graph repository
(`graph.py`: `load_poverty_data`, `load_unemployment_data`, and the caller
logic of `main`).  CSV lines are modelled as lists of cell strings; the two
loaders are translated as explicit step functions over a parse state, folded
over the row stream, together with exception-level (`Except`) variants that
make Python's raise/try/except behaviour explicit.
-/

set_option maxRecDepth 4000

/-- A raw CSV row: an ordered sequence of text cells. -/
abbrev Row := List String

/-- Control outcome of processing one row of the stream: either continue the
loop with an updated state, or leave the loop (`break`). -/
inductive LoopCtl (σ : Type) where
  | cont (st : σ) : LoopCtl σ
  | brk (st : σ) : LoopCtl σ
deriving DecidableEq

/- ### String primitives (models of the Python builtins used by graph.py) -/

/-- Model of Python `str.strip()` on a character list: drop whitespace from
both ends. -/
def pyStrip (cs : List Char) : List Char :=
  ((cs.dropWhile Char.isWhitespace).reverse.dropWhile Char.isWhitespace).reverse

/-- `s.strip()` as a `String` operation. -/
def stripStr (s : String) : String := ⟨pyStrip s.data⟩

/-- Model of Python `str.lower()` (ASCII case folding suffices for the cell
texts this program compares). -/
def lowerStr (s : String) : String := ⟨s.data.map Char.toLower⟩

/-- Characters that Python's `str.isdigit()` accepts although `int()` raises
`ValueError` on them: the Unicode digit-property characters outside the
decimal-digit category.  The model lists the Latin-1 and the superscript
and subscript digit characters; Python accepts further such characters, all
behaving like these. -/
def pyDigitExtras : List Char :=
  ['¹', '²', '³', '⁰', '⁴', '⁵', '⁶', '⁷', '⁸', '⁹',
   '₀', '₁', '₂', '₃', '₄', '₅', '₆', '₇', '₈', '₉']

/-- A character Python's `str.isdigit()` accepts: the decimal digits plus
the non-decimal digit characters of `pyDigitExtras`.  The gap between this
test and what `int()` parses is observable: `"²".isdigit()` is true while
`int("²")` raises. -/
def pyIsDigitChar (c : Char) : Bool := c.isDigit || pyDigitExtras.contains c

/-- Model of Python `str.isdigit()`: nonempty and every character a digit
in the Unicode sense of `pyIsDigitChar`. -/
def isdigitStr (s : String) : Bool := !s.data.isEmpty && s.data.all pyIsDigitChar

/-- Model of `s.split(" ")[0]`: the prefix of `s` up to the first space. -/
def firstToken (s : String) : String := ⟨s.data.takeWhile (fun c => c != ' ')⟩

/-- Model of `s.replace(",", "")`: remove every comma. -/
def removeCommas (s : String) : String := ⟨s.data.filter (fun c => c != ',')⟩

/-- Substring search over character lists: does `pat` occur contiguously in
`s`?  (Model of Python `pat in s` on strings.) -/
def listContainsSub (pat : List Char) : List Char → Bool
  | [] => pat.isEmpty
  | c :: rest => List.isPrefixOf pat (c :: rest) || listContainsSub pat rest

/-- Python `pat in s` for strings: `pat` is a contiguous substring of `s`. -/
def strContainsSub (s pat : String) : Bool := listContainsSub pat.data s.data

/-- Numeric value of a digit list (most significant first). -/
def digitsVal (cs : List Char) : Nat := cs.foldl (fun a c => a * 10 + (c.toNat - 48)) 0

/-- Split an optional leading sign off a character list, returning
(isNegative, rest). -/
def signSplit (cs : List Char) : Bool × List Char :=
  if cs.head? = some '-' then (true, cs.tail)
  else if cs.head? = some '+' then (false, cs.tail)
  else (false, cs)

/-- Model of Python `int(s)` on decimal text: strip whitespace, optional
sign, then a nonempty digit string; `none` models a raised `ValueError`. -/
def pyInt? (s : String) : Option Int :=
  let p := signSplit (pyStrip s.data)
  if p.2 ≠ [] ∧ p.2.all Char.isDigit then
    some (if p.1 then -(digitsVal p.2 : Int) else (digitsVal p.2 : Int))
  else none

/-- The numeric value decoded from a decimal cell text, represented exactly
as `mantissa / 10 ^ exp10`.  The program only ever stores these values in
output sequences (no arithmetic is performed on them before charting), so
this exact decimal reading is a faithful abstraction of Python's `float`. -/
structure PyFloat where
  mantissa : Int
  exp10 : Nat
deriving DecidableEq

/-- Model of Python `float(s)` on plain decimal text (optional sign, digits,
at most one point, no exponent — the forms occurring in these data files);
`none` models a raised `ValueError`. -/
def pyFloat? (s : String) : Option PyFloat :=
  let p := signSplit (pyStrip s.data)
  let ip := p.2.takeWhile Char.isDigit
  let rest := p.2.dropWhile Char.isDigit
  if rest = [] then
    if ip ≠ [] then
      some ⟨if p.1 then -(digitsVal ip : Int) else (digitsVal ip : Int), 0⟩
    else none
  else if rest.head? = some '.' ∧ rest.tail.all Char.isDigit ∧ (ip ≠ [] ∨ rest.tail ≠ []) then
    let m : Nat := digitsVal ip * 10 ^ rest.tail.length + digitsVal rest.tail
    some ⟨if p.1 then -(m : Int) else (m : Int), rest.tail.length⟩
  else none

/- ### Poverty loader (`load_poverty_data`), total semantics -/

/-- The `DEMOGRAPHIC_BREAK_INDICATORS` constant of graph.py. -/
def DEMOGRAPHIC_BREAK_INDICATORS : List String :=
  ["White Alone", "Black Alone", "Asian Alone",
   "American Indian", "Hispanic", "Two or More"]

/-- The per-file configuration passed to `load_poverty_data`. -/
structure PovConfig where
  targetHeaderIndicator : String
  linesToSkipAfterHeader : Nat
  yearColIdx : Nat
  numColIdx : Nat
  pctColIdx : Nat
  headerSearchInCell : Bool
deriving DecidableEq

/-- Parse state of `load_poverty_data`: the two loop flags plus the three
accumulating output sequences. -/
structure PovState where
  dataHeaderFound : Bool
  currentLinesToSkip : Nat
  yearsData : List Int
  povertyNumbersData : List Int
  povertyPercentData : List PyFloat
deriving DecidableEq

/-- `max(year_col_idx, num_col_idx, pct_col_idx)` from the row-length guard. -/
def povMax3 (cfg : PovConfig) : Nat := max cfg.yearColIdx (max cfg.numColIdx cfg.pctColIdx)

/-- Header detection of `load_poverty_data`: substring search in any cell
(`header_search_in_cell=True`) or in the first cell only. -/
def povHeaderMatch (cfg : PovConfig) (row : Row) : Bool :=
  if cfg.headerSearchInCell then
    !row.isEmpty && row.any (fun cell => strContainsSub cell cfg.targetHeaderIndicator)
  else
    !row.isEmpty && strContainsSub (row.getD 0 "") cfg.targetHeaderIndicator

/-- The mandatory/optional value test of lines 90 and 92 of graph.py:
nonempty, not a missing-data sentinel (`n`/`na`, case-insensitive), and not
whitespace-only. -/
def cellValueOk (s : String) : Bool :=
  s != "" && lowerStr s != "n" && lowerStr s != "na" && stripStr s != ""

/-- Lines 92-98: the count cell's value, with the zero-placeholder policy
(sentinel, empty or unparseable count becomes `0`). -/
def numValue (s : String) : Int :=
  if cellValueOk s then (pyInt? s).getD 0 else 0

/-- The `try:` block of lines 81-100 of graph.py, recovered semantics: given
the current accumulators and a row (already past the guard and break check),
return the updated accumulators.  When `float(percent_str)` raises, the
already-performed year and count appends survive (Python mutates the lists
in place before the exception) while the percent list is untouched. -/
def povTryT (cfg : PovConfig) (ys : List Int) (ns : List Int) (ps : List PyFloat) (row : Row) :
    List Int × List Int × List PyFloat :=
  let year_str := firstToken (row.getD cfg.yearColIdx "")
  if !(isdigitStr year_str) then (ys, ns, ps)
  else
    match pyInt? year_str with
    | none => (ys, ns, ps)
    | some year =>
      let number_str := removeCommas (row.getD cfg.numColIdx "")
      let percent_str := removeCommas (row.getD cfg.pctColIdx "")
      if cellValueOk percent_str then
        match pyFloat? percent_str with
        | none => (ys ++ [year], ns ++ [numValue number_str], ps)
        | some q => (ys ++ [year], ns ++ [numValue number_str], ps ++ [q])
      else (ys, ns, ps)

/-- Lines 107-109: the `elif` branch handling empty rows / empty first cell
(break out of the loop once data has been collected, otherwise skip). -/
def povElifT (st : PovState) (row : Row) : LoopCtl PovState :=
  if row = [] then (if st.yearsData ≠ [] then .brk st else .cont st)
  else if row.getD 0 "" = "" ∧ st.dataHeaderFound then
    (if st.yearsData ≠ [] then .brk st else .cont st)
  else .cont st

/-- Lines 71-109 of graph.py: processing of one row once the header has been
found (skip countdown, row guard, demographic-break check, decode). -/
def povStepPostT (cfg : PovConfig) (st : PovState) (row : Row) : LoopCtl PovState :=
  if st.currentLinesToSkip > 0 then
    .cont {st with currentLinesToSkip := st.currentLinesToSkip - 1}
  else if row.length > povMax3 cfg then
    if row.getD cfg.yearColIdx "" ≠ "" then
      if DEMOGRAPHIC_BREAK_INDICATORS.any
          (fun ind => strContainsSub (row.getD cfg.yearColIdx "") ind) then .brk st
      else
        let acc := povTryT cfg st.yearsData st.povertyNumbersData st.povertyPercentData row
        .cont {st with yearsData := acc.1, povertyNumbersData := acc.2.1,
                       povertyPercentData := acc.2.2}
    else povElifT st row
  else povElifT st row

/-- One full loop iteration of `load_poverty_data` (lines 58-109): header
search phase, then `povStepPostT`.  Note that when the header matches, the
matching row itself falls through into `povStepPostT` (graph.py has no
unconditional `continue` after setting `data_header_found`). -/
def povStepT (cfg : PovConfig) (st : PovState) (row : Row) : LoopCtl PovState :=
  if st.dataHeaderFound then povStepPostT cfg st row
  else if povHeaderMatch cfg row then
    povStepPostT cfg
      {st with dataHeaderFound := true, currentLinesToSkip := cfg.linesToSkipAfterHeader} row
  else .cont st

/-- The row loop of `load_poverty_data`, folded over the row stream with
early exit on `break`. -/
def povLoopT (cfg : PovConfig) : PovState → List Row → PovState
  | st, [] => st
  | st, r :: rs =>
    match povStepT cfg st r with
    | .cont st1 => povLoopT cfg st1 rs
    | .brk st1 => st1

/-- Initial parse state of `load_poverty_data`. -/
def povInitState : PovState := ⟨false, 0, [], [], []⟩

/-- `load_poverty_data` on an already-read row stream: run the loop, then
reverse the three sequences (lines 111-116) and return them. -/
def loadPovertyData (cfg : PovConfig) (rows : List Row) :
    List Int × List Int × List PyFloat :=
  let st := povLoopT cfg povInitState rows
  (st.yearsData.reverse, st.povertyNumbersData.reverse, st.povertyPercentData.reverse)

/- ### Unemployment loader (`load_unemployment_data`), total semantics -/

/-- A `datetime(year, month, 1)` value as produced by the month decoder. -/
structure TimePoint where
  year : Int
  month : Nat
deriving DecidableEq

/-- Model of `datetime(year, month, 1)`: defined exactly on the argument
ranges Python's `datetime` accepts; `none` models a raised `ValueError`. -/
def pyDatetime? (y : Int) (m : Nat) : Option TimePoint :=
  if 1 ≤ y ∧ y ≤ 9999 ∧ 1 ≤ m ∧ m ≤ 12 then some ⟨y, m⟩ else none

/-- The `month_abbr` dictionary of graph.py as an association list. -/
def monthAbbr : List (String × Nat) :=
  [("Jan", 1), ("Feb", 2), ("Mar", 3), ("Apr", 4), ("May", 5), ("Jun", 6),
   ("Jul", 7), ("Aug", 8), ("Sep", 9), ("Oct", 10), ("Nov", 11), ("Dec", 12)]

/-- `list(month_abbr.keys())`. -/
def monthAbbrKeys : List String := monthAbbr.map Prod.fst

/-- `range(1, 13)`: the month column indices. -/
def monthIdxList : List Nat := [1, 2, 3, 4, 5, 6, 7, 8, 9, 10, 11, 12]

/-- Parse state of `load_unemployment_data`. -/
structure UnempState where
  dataHeaderFound : Bool
  currentLinesToSkip : Nat
  datesData : List TimePoint
  unemploymentRatesData : List PyFloat
deriving DecidableEq

/-- The `try:` block of lines 165-171 of graph.py, recovered semantics.
`datetime(...)` is evaluated and appended first; if `float(rate_str)` then
raises, the date entry survives while the rate list is untouched. -/
def monthTryT (year : Int) (month : Nat) (rate_str : String)
    (dates : List TimePoint) (rates : List PyFloat) : List TimePoint × List PyFloat :=
  match pyDatetime? year month with
  | none => (dates, rates)
  | some d =>
    match pyFloat? rate_str with
    | none => (dates ++ [d], rates)
    | some q => (dates ++ [d], rates ++ [q])

/-- Lines 159-171: processing of one month column of a data row. -/
def monthStepT (row : Row) (year : Int) (acc : List TimePoint × List PyFloat) (m : Nat) :
    List TimePoint × List PyFloat :=
  if row.length > m ∧ stripStr (row.getD m "") ≠ "" then
    let key := monthAbbrKeys.getD (m - 1) ""
    let month := (monthAbbr.lookup key).getD 0
    let rate_str := stripStr (row.getD m "")
    if ¬ (lowerStr rate_str ∈ (["n", "na", ""] : List String)) then
      monthTryT year month rate_str acc.1 acc.2
    else acc
  else acc

/-- Lines 173-175: the `elif` branch of the unemployment loop. -/
def unempElifT (st : UnempState) (row : Row) : LoopCtl UnempState :=
  if row = [] then (if st.datesData ≠ [] then .brk st else .cont st)
  else if row.getD 0 "" = "" ∧ st.dataHeaderFound then
    (if st.datesData ≠ [] then .brk st else .cont st)
  else .cont st

/-- Lines 149-175: processing of one row once the header has been found. -/
def unempStepPostT (st : UnempState) (row : Row) : LoopCtl UnempState :=
  if st.currentLinesToSkip > 0 then
    .cont {st with currentLinesToSkip := st.currentLinesToSkip - 1}
  else if row ≠ [] ∧ row.length > 1 ∧ isdigitStr (stripStr (row.getD 0 "")) then
    let year := (pyInt? (stripStr (row.getD 0 ""))).getD 0
    let acc := monthIdxList.foldl (monthStepT row year)
      (st.datesData, st.unemploymentRatesData)
    .cont {st with datesData := acc.1, unemploymentRatesData := acc.2}
  else unempElifT st row

/-- Header detection of `load_unemployment_data` (line 143): Python's
`target_header_indicator in row` is list membership, i.e. exact equality
with some cell. -/
def unempHeaderMatch (row : Row) (target : String) : Bool :=
  !row.isEmpty && row.contains target

/-- One full loop iteration of `load_unemployment_data` (lines 141-175). -/
def unempStepT (target : String) (skipN : Nat) (st : UnempState) (row : Row) :
    LoopCtl UnempState :=
  if st.dataHeaderFound then unempStepPostT st row
  else if unempHeaderMatch row target then
    unempStepPostT {st with dataHeaderFound := true, currentLinesToSkip := skipN} row
  else .cont st

/-- The row loop of `load_unemployment_data`. -/
def unempLoopT (target : String) (skipN : Nat) : UnempState → List Row → UnempState
  | st, [] => st
  | st, r :: rs =>
    match unempStepT target skipN st r with
    | .cont st1 => unempLoopT target skipN st1 rs
    | .brk st1 => st1

/-- Initial parse state of `load_unemployment_data`. -/
def unempInitState : UnempState := ⟨false, 0, [], []⟩

/-- `load_unemployment_data` on an already-read row stream.  Unlike the
poverty loader, the accumulated sequences are returned as-is (line 176 has
no reversal). -/
def loadUnemploymentData (target : String) (skipN : Nat) (rows : List Row) :
    List TimePoint × List PyFloat :=
  let st := unempLoopT target skipN unempInitState rows
  (st.datesData, st.unemploymentRatesData)

/-- The state carried by either `LoopCtl` outcome. -/
def LoopCtl.state {σ : Type} : LoopCtl σ → σ
  | .cont s => s
  | .brk s => s

/-- The three accumulated output sequences of a poverty parse state. -/
def povAcc (st : PovState) : List Int × List Int × List PyFloat :=
  (st.yearsData, st.povertyNumbersData, st.povertyPercentData)

/-- The final packaging step of `load_poverty_data` (lines 111-116): reverse
each accumulated sequence. -/
def povResult (st : PovState) : List Int × List Int × List PyFloat :=
  (st.yearsData.reverse, st.povertyNumbersData.reverse, st.povertyPercentData.reverse)

/- ### Caller logic of `main` (lines 325-327) -/

/-- What `main` does with one configuration's loaded series. -/
inductive CallerAction where
  | emitDiagnostic : CallerAction
  | generateCharts : CallerAction
deriving DecidableEq

/-- Lines 325-327 of graph.py: `if not years: print(diagnostic); continue`,
otherwise the chart-generation calls run. -/
def povCallerAction (years : List Int) : CallerAction :=
  if years.isEmpty then .emitDiagnostic else .generateCharts

/- ### Exception-level semantics

The same two loaders, with Python's exception behaviour explicit: cell
indexing raises `IndexError` when out of bounds, `int`/`float`/`datetime`
raise `ValueError` on bad input, dictionary lookup raises `KeyError`, and
the `try/except` blocks of graph.py catch exactly the exception classes
they name.  A `.error` escaping a loader is an uncaught exception. -/

theorem povLoopT_cons (cfg : PovConfig) (st : PovState) (r : Row) (rs : List Row) :
    povLoopT cfg st (r :: rs) =
      match povStepT cfg st r with
      | .cont st1 => povLoopT cfg st1 rs
      | .brk st1 => st1 := rfl

theorem unempLoopT_cons (target : String) (skipN : Nat) (st : UnempState) (r : Row)
    (rs : List Row) :
    unempLoopT target skipN st (r :: rs) =
      match unempStepT target skipN st r with
      | .cont st1 => unempLoopT target skipN st1 rs
      | .brk st1 => st1 := rfl

theorem povStepT_nonmatch (cfg : PovConfig) (st : PovState) (row : Row)
    (h1 : st.dataHeaderFound = false) (h2 : povHeaderMatch cfg row = false) :
    povStepT cfg st row = .cont st := by
  unfold povStepT
  rw [if_neg (by rw [h1]; exact Bool.false_ne_true), if_neg (by rw [h2]; exact Bool.false_ne_true)]

theorem povLoopT_nonmatch (cfg : PovConfig) (rows : List Row) (st : PovState)
    (h1 : st.dataHeaderFound = false) (h2 : ∀ r ∈ rows, povHeaderMatch cfg r = false) :
    povLoopT cfg st rows = st := by
  induction rows with
  | nil => rfl
  | cons r rs ih =>
    rw [povLoopT_cons, povStepT_nonmatch cfg st r h1 (h2 r (List.mem_cons_self r rs))]
    exact ih (fun x hx => h2 x (List.mem_cons_of_mem r hx))

theorem povLoopT_append_nonmatch (cfg : PovConfig) (p rest : List Row) (st : PovState)
    (h1 : st.dataHeaderFound = false) (h2 : ∀ r ∈ p, povHeaderMatch cfg r = false) :
    povLoopT cfg st (p ++ rest) = povLoopT cfg st rest := by
  induction p with
  | nil => rfl
  | cons r rs ih =>
    rw [List.cons_append, povLoopT_cons,
      povStepT_nonmatch cfg st r h1 (h2 r (List.mem_cons_self r rs))]
    exact ih (fun x hx => h2 x (List.mem_cons_of_mem r hx))

theorem unempStepT_nonmatch (target : String) (skipN : Nat) (st : UnempState) (row : Row)
    (h1 : st.dataHeaderFound = false) (h2 : unempHeaderMatch row target = false) :
    unempStepT target skipN st row = .cont st := by
  unfold unempStepT
  rw [if_neg (by rw [h1]; exact Bool.false_ne_true), if_neg (by rw [h2]; exact Bool.false_ne_true)]

theorem unempLoopT_nonmatch (target : String) (skipN : Nat) (rows : List Row) (st : UnempState)
    (h1 : st.dataHeaderFound = false) (h2 : ∀ r ∈ rows, unempHeaderMatch r target = false) :
    unempLoopT target skipN st rows = st := by
  induction rows with
  | nil => rfl
  | cons r rs ih =>
    rw [unempLoopT_cons, unempStepT_nonmatch target skipN st r h1 (h2 r (List.mem_cons_self r rs))]
    exact ih (fun x hx => h2 x (List.mem_cons_of_mem r hx))

theorem loadPovertyData_eq (cfg : PovConfig) (rows : List Row) :
    loadPovertyData cfg rows = povResult (povLoopT cfg povInitState rows) := rfl

theorem povResult_congr {st1 st2 : PovState} (h : povAcc st1 = povAcc st2) :
    povResult st1 = povResult st2 := by
  unfold povAcc at h
  unfold povResult
  rw [show st1.yearsData = st2.yearsData from congrArg Prod.fst h,
    show st1.povertyNumbersData = st2.povertyNumbersData from congrArg (fun t => t.2.1) h,
    show st1.povertyPercentData = st2.povertyPercentData from congrArg (fun t => t.2.2) h]

theorem povLoopT_skip (cfg : PovConfig) (k : Nat) :
    ∀ (rs : List Row) (ys : List Int) (ns : List Int) (ps : List PyFloat),
    povAcc (povLoopT cfg ⟨true, k, ys, ns, ps⟩ rs) =
    povAcc (povLoopT cfg ⟨true, 0, ys, ns, ps⟩ (rs.drop k)) := by
  induction k with
  | zero => intro rs ys ns ps; rw [List.drop_zero]
  | succ k ih =>
    intro rs ys ns ps
    cases rs with
    | nil => rfl
    | cons r rs2 =>
      have hstep : povStepT cfg ⟨true, k + 1, ys, ns, ps⟩ r = .cont ⟨true, k, ys, ns, ps⟩ := by
        simp [povStepT, povStepPostT]
      rw [List.drop_succ_cons, povLoopT_cons, hstep]
      exact ih rs2 ys ns ps

theorem povTryT_len (cfg : PovConfig) (ys : List Int) (ns : List Int) (ps : List PyFloat)
    (row : Row) (h : ys.length = ns.length) :
    (povTryT cfg ys ns ps row).1.length = (povTryT cfg ys ns ps row).2.1.length := by
  unfold povTryT
  by_cases hd : isdigitStr (firstToken (row.getD cfg.yearColIdx "")) = true
  · simp only [hd, Bool.not_true, Bool.false_eq_true, if_false]
    cases hy : pyInt? (firstToken (row.getD cfg.yearColIdx "")) with
    | none => exact h
    | some year =>
      by_cases hp : cellValueOk (removeCommas (row.getD cfg.pctColIdx "")) = true
      · simp only [hp, if_true]
        cases hf : pyFloat? (removeCommas (row.getD cfg.pctColIdx "")) with
        | none => simp [h]
        | some q => simp [h]
      · simp only [eq_false_of_ne_true hp, if_false]
        exact h
  · simp only [eq_false_of_ne_true hd, Bool.not_false, if_true]
    exact h

theorem povElifT_state (st : PovState) (row : Row) : (povElifT st row).state = st := by
  unfold povElifT
  split_ifs <;> rfl

theorem povStepPostT_len (cfg : PovConfig) (st : PovState) (row : Row)
    (h : st.yearsData.length = st.povertyNumbersData.length) :
    ((povStepPostT cfg st row).state).yearsData.length =
    ((povStepPostT cfg st row).state).povertyNumbersData.length := by
  have htry := povTryT_len cfg st.yearsData st.povertyNumbersData st.povertyPercentData row h
  unfold povStepPostT
  split_ifs with h1 h2 h3 h4
  · exact h
  · exact h
  · simpa [LoopCtl.state] using htry
  · rw [povElifT_state]; exact h
  · rw [povElifT_state]; exact h

theorem povStepT_len (cfg : PovConfig) (st : PovState) (row : Row)
    (h : st.yearsData.length = st.povertyNumbersData.length) :
    ((povStepT cfg st row).state).yearsData.length =
    ((povStepT cfg st row).state).povertyNumbersData.length := by
  unfold povStepT
  split_ifs with h1 h2
  · exact povStepPostT_len cfg st row h
  · exact povStepPostT_len cfg _ row h
  · exact h

theorem povLoopT_len (cfg : PovConfig) (rows : List Row) :
    ∀ st : PovState, st.yearsData.length = st.povertyNumbersData.length →
    (povLoopT cfg st rows).yearsData.length =
    (povLoopT cfg st rows).povertyNumbersData.length := by
  induction rows with
  | nil => intro st h; exact h
  | cons r rs ih =>
    intro st h
    have hstep := povStepT_len cfg st r h
    rw [povLoopT_cons]
    cases hres : povStepT cfg st r with
    | cont st1 =>
      rw [hres] at hstep
      exact ih st1 hstep
    | brk st1 =>
      rw [hres] at hstep
      exact hstep

theorem numValue_zero (s : String) (h : cellValueOk s = false ∨ pyInt? s = none) :
    numValue s = 0 := by
  unfold numValue
  rcases h with h | h
  · rw [if_neg (by rw [h]; exact Bool.false_ne_true)]
  · by_cases hc : cellValueOk s = true
    · rw [if_pos hc, h]
      rfl
    · rw [if_neg hc]

/- ### Claim theorems -/

/-- C1 (code bug evaluation): the claim says the three sequences returned by
`load_poverty_data` always have equal length.  The code violates it: on a
row whose percent cell is non-empty, non-sentinel but unparseable
(`"1.2.3"`), the year and count lists are appended before `float(...)`
raises, the handler continues, and the percent list stays shorter. -/
theorem c1_percent_parse_failure_breaks_length_invariant :
    loadPovertyData ⟨"HDR", 0, 0, 2, 3, false⟩
      [["HDR", "", "", ""], ["1990", "x", "100", "1.2.3"]] = ([1990], [100], []) ∧
    ¬ ((loadPovertyData ⟨"HDR", 0, 0, 2, 3, false⟩
        [["HDR", "", "", ""], ["1990", "x", "100", "1.2.3"]]).2.2.length =
       (loadPovertyData ⟨"HDR", 0, 0, 2, 3, false⟩
        [["HDR", "", "", ""], ["1990", "x", "100", "1.2.3"]]).1.length) := by
  decide

/-- C2 (counterexample): the claim says exactly `skip_count` rows after the
header row are discarded and the header row is never a candidate data row.
In graph.py the header row itself consumes one unit of the skip budget:
with skip = 3 the third row after the header (year 1993) is decoded, and
with skip = 0 the header row itself is decoded as a data row. -/
theorem c2_skip_offbyone_counterexample :
    loadPovertyData ⟨"HDR", 3, 0, 2, 3, false⟩
      [["HDR", "", "", ""], ["1991", "x", "10", "5.0"], ["1992", "x", "10", "5.0"],
       ["1993", "x", "30", "7.0"], ["1990", "x", "20", "6.0"]] =
      ([1990, 1993], [20, 30], [⟨60, 1⟩, ⟨70, 1⟩]) ∧
    loadPovertyData ⟨"1990", 0, 0, 2, 3, false⟩ [["1990", "x", "10", "5.0"]] =
      ([1990], [10], [⟨50, 1⟩]) := by
  decide

/-- C2 (amended): once the header rule matches a row, the matching row
itself enters the skip accounting: with `skip_count = 0` the header row
itself is the first candidate data row, and with `skip_count > 0` the
header row plus exactly `skip_count - 1` following rows are discarded
unconditionally, after which the remaining rows are the candidate data
rows. -/
theorem c2_amended_header_skip (cfg : PovConfig) (p : List Row) (hd : Row) (rest : List Row)
    (hp : ∀ x ∈ p, povHeaderMatch cfg x = false)
    (hh : povHeaderMatch cfg hd = true) :
    loadPovertyData cfg (p ++ hd :: rest) =
      if cfg.linesToSkipAfterHeader = 0 then
        povResult (povLoopT cfg ⟨true, 0, [], [], []⟩ (hd :: rest))
      else
        povResult (povLoopT cfg ⟨true, 0, [], [], []⟩
          (rest.drop (cfg.linesToSkipAfterHeader - 1))) := by
  rw [loadPovertyData_eq, povLoopT_append_nonmatch cfg p (hd :: rest) povInitState rfl hp,
    povLoopT_cons]
  have hstep : povStepT cfg povInitState hd =
      povStepPostT cfg ⟨true, cfg.linesToSkipAfterHeader, [], [], []⟩ hd := by
    unfold povStepT
    rw [if_neg (by decide), if_pos hh]
    rfl
  cases hS : cfg.linesToSkipAfterHeader with
  | zero =>
    rw [hS] at hstep
    rw [hstep, if_pos rfl, povLoopT_cons]
    have h2 : povStepT cfg ⟨true, 0, [], [], []⟩ hd =
        povStepPostT cfg ⟨true, 0, [], [], []⟩ hd := by
      unfold povStepT
      rw [if_pos rfl]
    rw [h2]
  | succ k =>
    rw [hS] at hstep
    rw [hstep, if_neg (Nat.succ_ne_zero k)]
    have h3 : povStepPostT cfg ⟨true, k + 1, [], [], []⟩ hd = .cont ⟨true, k, [], [], []⟩ := by
      unfold povStepPostT
      rw [if_pos (Nat.succ_pos k)]
      rfl
    rw [h3, Nat.succ_sub_one]
    exact povResult_congr (povLoopT_skip cfg k rest [] [] [])

/-- C2 (witness): with skip = 3, the amended description evaluates on a
concrete stream to the series starting at the third row after the header. -/
theorem c2_amended_header_skip_witness :
    loadPovertyData ⟨"HDR", 3, 0, 2, 3, false⟩
      ([["preamble"]] ++ ["HDR", "", "", ""] ::
        [["1991", "a", "10", "5.0"], ["1992", "a", "10", "5.0"],
         ["1993", "a", "30", "7.0"], ["1990", "a", "20", "6.0"]]) =
      ([1990, 1993], [20, 30], [⟨60, 1⟩, ⟨70, 1⟩]) := by
  have h := c2_amended_header_skip ⟨"HDR", 3, 0, 2, 3, false⟩ [["preamble"]]
    ["HDR", "", "", ""]
    [["1991", "a", "10", "5.0"], ["1992", "a", "10", "5.0"],
     ["1993", "a", "30", "7.0"], ["1990", "a", "20", "6.0"]]
    (by decide) (by decide)
  rw [h]
  decide

/-- C3 (counterexample): the claim says the returned time sequence is
strictly increasing regardless of the source file's row order.  With rows
already oldest-first, the unconditional reversal produces a strictly
decreasing output. -/
theorem c3_reversal_counterexample :
    loadPovertyData ⟨"HDR", 0, 0, 2, 3, false⟩
      [["HDR", "", "", ""], ["1990", "x", "10", "5.0"], ["1991", "x", "20", "6.0"]] =
      ([1991, 1990], [20, 10], [⟨60, 1⟩, ⟨50, 1⟩]) ∧
    ¬ List.Chain' (· < ·) (loadPovertyData ⟨"HDR", 0, 0, 2, 3, false⟩
      [["HDR", "", "", ""], ["1990", "x", "10", "5.0"], ["1991", "x", "20", "6.0"]]).1 := by
  refine ⟨by decide, ?_⟩
  intro hch
  have he : (loadPovertyData ⟨"HDR", 0, 0, 2, 3, false⟩
      [["HDR", "", "", ""], ["1990", "x", "10", "5.0"], ["1991", "x", "20", "6.0"]]).1 =
      [1991, 1990] := by decide
  rw [he] at hch
  exact absurd (List.chain'_cons.mp hch).1 (by decide)

/-- C3 (amended): the poverty loader reverses its assembled parallel
sequences before returning them, and the returned time sequence is strictly
increasing precisely when the source rows were extracted newest-first
(accumulated years strictly decreasing); the unemployment loader returns
its sequences in accumulation order, without any reversal. -/
theorem c3_amended_reversal (cfg : PovConfig) (rows : List Row)
    (h : List.Chain' (· > ·) (povLoopT cfg povInitState rows).yearsData) :
    (loadPovertyData cfg rows).1 = ((povLoopT cfg povInitState rows).yearsData).reverse ∧
    List.Chain' (· < ·) (loadPovertyData cfg rows).1 ∧
    ∀ (target : String) (skipN : Nat) (urows : List Row),
      loadUnemploymentData target skipN urows =
        ((unempLoopT target skipN unempInitState urows).datesData,
         (unempLoopT target skipN unempInitState urows).unemploymentRatesData) := by
  refine ⟨rfl, ?_, fun _ _ _ => rfl⟩
  show List.Chain' (· < ·) ((povLoopT cfg povInitState rows).yearsData).reverse
  rw [List.chain'_reverse]
  exact h

/-- C3 (witness): a newest-first fixture yields a strictly increasing
output time sequence. -/
theorem c3_amended_reversal_witness :
    List.Chain' (· < ·) (loadPovertyData ⟨"HDR", 0, 0, 2, 3, false⟩
      [["HDR", "", "", ""], ["1991", "x", "20", "6.0"], ["1990", "x", "10", "5.0"]]).1 :=
  (c3_amended_reversal ⟨"HDR", 0, 0, 2, 3, false⟩
    [["HDR", "", "", ""], ["1991", "x", "20", "6.0"], ["1990", "x", "10", "5.0"]]
    (by
      have he : (povLoopT ⟨"HDR", 0, 0, 2, 3, false⟩ povInitState
          [["HDR", "", "", ""], ["1991", "x", "20", "6.0"],
           ["1990", "x", "10", "5.0"]]).yearsData = [1991, 1990] := by decide
      rw [he]
      exact List.chain'_cons.mpr ⟨by decide, List.chain'_singleton 1990⟩)).2.1

/-- C4: the asymmetric missing-value policy of the poverty decoder.  A row
whose percent cell is empty, whitespace, or a case-insensitive sentinel
contributes no entry to any sequence even if its count cell is numeric;
a row with a valid year and parseable percent but a missing, sentinel, or
unparseable count cell contributes the year, a `0` count placeholder and
the correct percent value. -/
theorem c4_asymmetric_missing_value_policy (cfg : PovConfig) (st : PovState) (row : Row)
    (hf : st.dataHeaderFound = true) (hs : st.currentLinesToSkip = 0)
    (hlen : row.length > povMax3 cfg)
    (hy : row.getD cfg.yearColIdx "" ≠ "")
    (hb : DEMOGRAPHIC_BREAK_INDICATORS.any
      (fun ind => strContainsSub (row.getD cfg.yearColIdx "") ind) = false) :
    (cellValueOk (removeCommas (row.getD cfg.pctColIdx "")) = false →
      povStepT cfg st row = .cont st) ∧
    (∀ year q,
      isdigitStr (firstToken (row.getD cfg.yearColIdx "")) = true →
      pyInt? (firstToken (row.getD cfg.yearColIdx "")) = some year →
      cellValueOk (removeCommas (row.getD cfg.pctColIdx "")) = true →
      pyFloat? (removeCommas (row.getD cfg.pctColIdx "")) = some q →
      (cellValueOk (removeCommas (row.getD cfg.numColIdx "")) = false ∨
       pyInt? (removeCommas (row.getD cfg.numColIdx "")) = none) →
      povStepT cfg st row = .cont {st with
        yearsData := st.yearsData ++ [year],
        povertyNumbersData := st.povertyNumbersData ++ [0],
        povertyPercentData := st.povertyPercentData ++ [q]}) := by
  have hpost : povStepT cfg st row = povStepPostT cfg st row := by
    unfold povStepT
    rw [if_pos hf]
  have hdata : povStepPostT cfg st row = .cont {st with
      yearsData := (povTryT cfg st.yearsData st.povertyNumbersData st.povertyPercentData row).1,
      povertyNumbersData :=
        (povTryT cfg st.yearsData st.povertyNumbersData st.povertyPercentData row).2.1,
      povertyPercentData :=
        (povTryT cfg st.yearsData st.povertyNumbersData st.povertyPercentData row).2.2} := by
    unfold povStepPostT
    rw [if_neg (show ¬ st.currentLinesToSkip > 0 by rw [hs]; exact lt_irrefl 0),
      if_pos hlen, if_pos hy, if_neg (by rw [hb]; exact Bool.false_ne_true)]
  constructor
  · intro hpct
    rw [hpost, hdata]
    have htry : povTryT cfg st.yearsData st.povertyNumbersData st.povertyPercentData row =
        (st.yearsData, st.povertyNumbersData, st.povertyPercentData) := by
      unfold povTryT
      by_cases hdg : isdigitStr (firstToken (row.getD cfg.yearColIdx "")) = true
      · simp only [hdg, Bool.not_true, Bool.false_eq_true, if_false]
        cases hyi : pyInt? (firstToken (row.getD cfg.yearColIdx "")) with
        | none => rfl
        | some year => simp only [hpct, Bool.false_eq_true, if_false]
      · simp only [eq_false_of_ne_true hdg, Bool.not_false, if_true]
    rw [htry]
  · intro year q hdg hyi hpct hflt hnum
    rw [hpost, hdata]
    have htry : povTryT cfg st.yearsData st.povertyNumbersData st.povertyPercentData row =
        (st.yearsData ++ [year], st.povertyNumbersData ++ [0],
         st.povertyPercentData ++ [q]) := by
      unfold povTryT
      simp only [hdg, Bool.not_true, Bool.false_eq_true, if_false]
      simp only [hyi, hpct, if_true, hflt, numValue_zero _ hnum]
    rw [htry]

/-- C4 (witness): a row with percent `"NA"` and numeric count contributes
nothing; a row with count `"N"` and percent `"5.0"` contributes year, zero
placeholder, and the percent value. -/
theorem c4_asymmetric_missing_value_policy_witness :
    povStepT ⟨"HDR", 0, 0, 2, 3, false⟩ ⟨true, 0, [], [], []⟩ ["1990", "x", "100", "NA"] =
      .cont ⟨true, 0, [], [], []⟩ ∧
    povStepT ⟨"HDR", 0, 0, 2, 3, false⟩ ⟨true, 0, [], [], []⟩ ["1990", "x", "N", "5.0"] =
      .cont ⟨true, 0, [1990], [0], [⟨50, 1⟩]⟩ :=
  ⟨(c4_asymmetric_missing_value_policy ⟨"HDR", 0, 0, 2, 3, false⟩ ⟨true, 0, [], [], []⟩
      ["1990", "x", "100", "NA"] rfl rfl (by decide) (by decide) (by decide)).1 (by decide),
   (c4_asymmetric_missing_value_policy ⟨"HDR", 0, 0, 2, 3, false⟩ ⟨true, 0, [], [], []⟩
      ["1990", "x", "N", "5.0"] rfl rfl (by decide) (by decide) (by decide)).2 1990 ⟨50, 1⟩
      (by decide) (by decide) (by decide) (by decide) (Or.inl (by decide))⟩

/-- C5 (counterexample): the claim says any row whose year-column cell
contains a section-boundary marker terminates extraction.  A boundary row
that is too short to pass the data-row length guard (`["Black Alone"]` with
column layout (0,2,3)) is merely skipped, and a well-formed row after it
still contributes. -/
theorem c5_short_boundary_row_counterexample :
    loadPovertyData ⟨"HDR", 0, 0, 2, 3, false⟩
      [["HDR", "", "", ""], ["1990", "x", "10", "5.0"], ["Black Alone"],
       ["1991", "x", "20", "6.0"]] =
      ([1991, 1990], [20, 10], [⟨60, 1⟩, ⟨50, 1⟩]) ∧
    1991 ∈ (loadPovertyData ⟨"HDR", 0, 0, 2, 3, false⟩
      [["HDR", "", "", ""], ["1990", "x", "10", "5.0"], ["Black Alone"],
       ["1991", "x", "20", "6.0"]]).1 := by
  decide

/-- C5 (amended): a row that passes the data-row guard (long enough for all
configured columns, nonempty year cell) and whose year-column cell contains
a section-boundary marker terminates extraction immediately: it is not
yielded, and no later row contributes, whatever its content. -/
theorem c5_amended_boundary_termination (cfg : PovConfig) (st : PovState) (b : Row)
    (rest : List Row)
    (hf : st.dataHeaderFound = true) (hs : st.currentLinesToSkip = 0)
    (hlen : b.length > povMax3 cfg) (hy : b.getD cfg.yearColIdx "" ≠ "")
    (hb : DEMOGRAPHIC_BREAK_INDICATORS.any
      (fun ind => strContainsSub (b.getD cfg.yearColIdx "") ind) = true) :
    povLoopT cfg st (b :: rest) = st := by
  rw [povLoopT_cons]
  have hstep : povStepT cfg st b = .brk st := by
    unfold povStepT povStepPostT
    rw [if_pos hf, if_neg (show ¬ st.currentLinesToSkip > 0 by rw [hs]; exact lt_irrefl 0),
      if_pos hlen, if_pos hy, if_pos hb]
  rw [hstep]

/-- C5 (witness): a full-width boundary row stops the loop, discarding a
well-formed row that follows it. -/
theorem c5_amended_boundary_termination_witness :
    povLoopT ⟨"HDR", 0, 0, 2, 3, false⟩ ⟨true, 0, [1990], [10], [⟨50, 1⟩]⟩
      [["Black Alone", "x", "y", "z"], ["1991", "x", "20", "6.0"]] =
      ⟨true, 0, [1990], [10], [⟨50, 1⟩]⟩ :=
  c5_amended_boundary_termination ⟨"HDR", 0, 0, 2, 3, false⟩ ⟨true, 0, [1990], [10], [⟨50, 1⟩]⟩
    ["Black Alone", "x", "y", "z"] [["1991", "x", "20", "6.0"]]
    rfl rfl (by decide) (by decide) (by decide)

/-- C6 (code bug evaluation): the claim says a month cell that fails numeric
conversion contributes an entry to neither sequence.  The code appends
`datetime(year, month, 1)` before `float(rate_str)` raises, so the month
cell `"abc"` leaves a date entry with no matching rate entry: the two
sequences end with different lengths. -/
theorem c6_unparseable_month_cell_leaves_orphan_date :
    loadUnemploymentData "Year" 0 [["Year", "Jan", "Feb"], ["1985", "abc", "6.2"]] =
      ([⟨1985, 1⟩, ⟨1985, 2⟩], [⟨62, 1⟩]) ∧
    ¬ ((loadUnemploymentData "Year" 0
        [["Year", "Jan", "Feb"], ["1985", "abc", "6.2"]]).1.length =
       (loadUnemploymentData "Year" 0
        [["Year", "Jan", "Feb"], ["1985", "abc", "6.2"]]).2.length) := by
  decide

/-- C7: if the header rule never matches any row, both loaders return empty
sequences, and the caller of `main` treats the empty poverty series as a
"no data" outcome: it emits a diagnostic instead of invoking chart
generation for that configuration. -/
theorem c7_no_header_empty_nonerror (cfg : PovConfig) (rows : List Row) (target : String)
    (skipN : Nat) (urows : List Row)
    (h1 : ∀ r ∈ rows, povHeaderMatch cfg r = false)
    (h2 : ∀ r ∈ urows, unempHeaderMatch r target = false) :
    loadPovertyData cfg rows = ([], [], []) ∧
    loadUnemploymentData target skipN urows = ([], []) ∧
    povCallerAction (loadPovertyData cfg rows).1 = .emitDiagnostic := by
  have hp : povLoopT cfg povInitState rows = povInitState :=
    povLoopT_nonmatch cfg rows povInitState rfl h1
  have hu : unempLoopT target skipN unempInitState urows = unempInitState :=
    unempLoopT_nonmatch target skipN urows unempInitState rfl h2
  refine ⟨?_, ?_, ?_⟩
  · rw [loadPovertyData_eq, hp]
    rfl
  · show (let st := unempLoopT target skipN unempInitState urows
      (st.datesData, st.unemploymentRatesData)) = ([], [])
    rw [hu]
    rfl
  · rw [loadPovertyData_eq, hp]
    rfl

/-- C7 (witness): a fixture whose rows never match either header rule. -/
theorem c7_no_header_empty_nonerror_witness :
    loadPovertyData ⟨"All Races", 3, 0, 2, 3, false⟩ [["Table A"], ["note", "x"]] =
      ([], [], []) ∧
    loadUnemploymentData "Year" 0 [["Years", "Jan"]] = ([], []) ∧
    povCallerAction (loadPovertyData ⟨"All Races", 3, 0, 2, 3, false⟩
      [["Table A"], ["note", "x"]]).1 = .emitDiagnostic :=
  c7_no_header_empty_nonerror ⟨"All Races", 3, 0, 2, 3, false⟩ [["Table A"], ["note", "x"]]
    "Year" 0 [["Years", "Jan"]] (by decide) (by decide)

/-- C9: the unemployment loader's header rule (`target in row`, Python list
membership) matches a row exactly when some cell equals the indicator
string; a cell merely containing the indicator as a proper substring does
not match, unlike the substring-based poverty header rules. -/
theorem c9_unemp_header_requires_exact_cell :
    (∀ (row : Row) (t : String), unempHeaderMatch row t = true ↔ t ∈ row) ∧
    (povHeaderMatch ⟨"Year", 0, 0, 1, 2, true⟩ ["Annual Year data", "x"] = true ∧
     unempHeaderMatch ["Annual Year data", "x"] "Year" = false) := by
  refine ⟨?_, by decide, by decide⟩
  intro row t
  unfold unempHeaderMatch
  constructor
  · intro h
    simp only [Bool.and_eq_true] at h
    exact List.elem_iff.mp h.2
  · intro h
    have hne : row ≠ [] := by
      intro e
      subst e
      exact absurd h (List.not_mem_nil t)
    simp [hne, List.elem_iff, h]

/-- C10: in `load_poverty_data` the years sequence and the count sequence
always have equal length — a count value (actual or placeholder) is
appended in the same iteration as each year, before the percent conversion
is attempted — for every configuration and row stream, including rows
whose percent cell fails numeric conversion. -/
theorem c10_years_counts_equal_length (cfg : PovConfig) (rows : List Row) :
    (loadPovertyData cfg rows).1.length = (loadPovertyData cfg rows).2.1.length := by
  rw [loadPovertyData_eq]
  unfold povResult
  simp only [List.length_reverse]
  exact povLoopT_len cfg rows povInitState rfl
